import Mathlib

/-!
Verification of the vboot firmware core against its design specification.

The C sources embedded here are `firmware/2lib/2common.c` (bounds checking,
constant-time compare, work-buffer allocator, signature dispatch) and
`firmware/2lib/2ec_sync.c` (EC software-sync state machine).  Pointers and
machine integers are modelled as `Nat`/`Int` with explicit reductions modulo
`2^64` where the C arithmetic wraps; external callbacks (`vb2ex_*`) are
modelled as explicit environments/oracles that script the value each call
returns.
-/

namespace Vboot

/-- The `vb2_error_t` values this development distinguishes.  Constructors
mirror the `VB2_ERROR_*` / `VBERROR_*` constants used by the embedded code;
`other n` stands for any further numeric error code an external callback may
produce. -/
inductive Vb2Error where
  | SUCCESS
  | INSIDE_PARENT_WRAPS
  | INSIDE_MEMBER_WRAPS
  | INSIDE_MEMBER_OUTSIDE
  | INSIDE_DATA_OVERLAP
  | INSIDE_DATA_WRAPS
  | INSIDE_DATA_OUTSIDE
  | VDATA_NOT_ENOUGH_DATA
  | VDATA_DIGEST_SIZE
  | VDATA_WORKBUF_DIGEST
  | VDATA_SIG_SIZE
  | RSA_DIGEST_MISMATCH
  | RSA_PADDING
  | RSA_WORKBUF
  | EX_HWCRYPTO_UNSUPPORTED
  | EC_HASH_IMAGE
  | EC_HASH_EXPECTED
  | EC_HASH_SIZE
  | EC_REBOOT_TO_RO_REQUIRED
  | EC_REBOOT_TO_SWITCH_RW
  | REBOOT_REQUIRED
  | other (n : Nat)
deriving DecidableEq, Repr

open Vb2Error

/-! ## Bounded-buffer arithmetic (2common.c lines 100-148)

`uintptr_t` values are integers reduced modulo `2^64`; `ptrdiff_t` values are
integers in `[-2^63, 2^63)`.  `toSigned` is the (implementation-defined,
wrap-around) conversion from the 64-bit unsigned result of an addition or
subtraction back to `ptrdiff_t`. -/

/-- `2^64`, the modulus of `uintptr_t`/`size_t` arithmetic. -/
def U64 : Int := 18446744073709551616

/-- `2^63`, the first integer outside the `ptrdiff_t` range. -/
def P63 : Int := 9223372036854775808

/-- Conversion of a 64-bit (mod `2^64`) quantity to the signed `ptrdiff_t`
representative in `[-2^63, 2^63)`. -/
def toSigned (z : Int) : Int := (z + P63) % U64 - P63

/-- `vb2_offset_of` (2common.c line 100): `(uintptr_t)ptr - (uintptr_t)base`,
computed modulo `2^64` and stored into a `ptrdiff_t`. -/
def vb2_offset_of (base ptr : Int) : Int := toSigned (ptr - base)

/-- `vb2_verify_member_inside` (2common.c lines 111-148).  Arguments are the
parent base address and size, the member address and size, and the member
data's offset (a `ptrdiff_t`) and size.  Mixed signed/unsigned comparisons
(`member_offs > parent_size` etc.) convert the signed operand to `uint64`,
hence the `% U64` on the left-hand sides. -/
def vb2_verify_member_inside (parent psize member msize mdoff dsize : Int) :
    Vb2Error :=
  if (parent + psize) % U64 < parent then INSIDE_PARENT_WRAPS
  else if toSigned (vb2_offset_of parent member + msize) <
      vb2_offset_of parent member then INSIDE_MEMBER_WRAPS
  else if vb2_offset_of parent member < 0 ∨
      vb2_offset_of parent member % U64 > psize ∨
      toSigned (vb2_offset_of parent member + msize) % U64 > psize then
    INSIDE_MEMBER_OUTSIDE
  else if 0 < dsize ∧ toSigned (vb2_offset_of parent member + mdoff) <
      toSigned (vb2_offset_of parent member + msize) then INSIDE_DATA_OVERLAP
  else if toSigned (toSigned (vb2_offset_of parent member + mdoff) + dsize) <
      toSigned (vb2_offset_of parent member + mdoff) then INSIDE_DATA_WRAPS
  else if toSigned (vb2_offset_of parent member + mdoff) < 0 ∨
      toSigned (vb2_offset_of parent member + mdoff) % U64 > psize ∨
      toSigned (toSigned (vb2_offset_of parent member + mdoff) + dsize) % U64 >
        psize then INSIDE_DATA_OUTSIDE
  else SUCCESS

/-- Refinement spec for claim C1, following the claim's words: success exactly
when the member lies fully inside the parent and the member's data lies fully
inside the parent without overlapping the member header, and otherwise the
distinct error kind for the violated condition, checked in the claim's order.
`moff` is the member's offset from the parent base (exact integer arithmetic);
an end "wraps" when it leaves the representable `ptrdiff_t` offset range,
which is how the spec defines wrap ("any computed endpoint that is less than
its start is rejected as wrap"). -/
def member_inside_claim (parent psize moff msize mdoff dsize : Int) :
    Vb2Error :=
  if U64 ≤ parent + psize then INSIDE_PARENT_WRAPS
  else if P63 ≤ moff + msize then INSIDE_MEMBER_WRAPS
  else if ¬(0 ≤ moff ∧ moff + msize ≤ psize) then INSIDE_MEMBER_OUTSIDE
  else if 0 < dsize ∧ moff + mdoff < moff + msize then INSIDE_DATA_OVERLAP
  else if P63 ≤ moff + mdoff + dsize then INSIDE_DATA_WRAPS
  else if ¬(0 ≤ moff + mdoff ∧ moff + mdoff + dsize ≤ psize) then
    INSIDE_DATA_OUTSIDE
  else SUCCESS

/-! ## Constant-time compare (2common.c lines 12-29) -/

/-- The accumulator of `vb2_safe_memcmp`'s loop: OR of the XORs of the first
`n` bytes (buffers are byte streams; a load reads the low 8 bits). -/
def memcmpAcc (s1 s2 : Nat → Nat) : Nat → Nat
  | 0 => 0
  | n + 1 => memcmpAcc s1 s2 n ||| (s1 n % 256 ^^^ s2 n % 256)

/-- `vb2_safe_memcmp` (2common.c lines 12-29): returns `0` for size zero,
otherwise `result != 0` after OR-accumulating the bytewise XORs. -/
def vb2_safe_memcmp (s1 s2 : Nat → Nat) (size : Nat) : Nat :=
  if size = 0 then 0
  else if memcmpAcc s1 s2 size ≠ 0 then 1 else 0

/-! ## Work-buffer allocator (2common.c lines 63-98) -/

/-- Work-buffer alignment; `tests/vb2_common_tests.c` fixes it at 16. -/
def VB2_WORKBUF_ALIGN : Nat := 16

/-- Modelled from the spec: `vb2_wb_round_up` (a header inline not present in
the sources) rounds a size up to the work-buffer alignment ("advances top by
`round_up(n, ALIGN)`"). -/
def vb2_wb_round_up (n : Nat) : Nat :=
  (n + VB2_WORKBUF_ALIGN - 1) / VB2_WORKBUF_ALIGN * VB2_WORKBUF_ALIGN

/-- `struct vb2_workbuf`: current top pointer and remaining size. -/
structure Workbuf where
  buf : Int
  size : Nat
deriving DecidableEq, Repr

/-- `vb2_workbuf_alloc` (2common.c lines 63-77): round the size up, fail if
it exceeds the remaining space, otherwise return the current top and advance
it. -/
def vb2_workbuf_alloc (wb : Workbuf) (size : Nat) : Option (Int × Workbuf) :=
  if vb2_wb_round_up size > wb.size then none
  else some (wb.buf,
    ⟨wb.buf + vb2_wb_round_up size, wb.size - vb2_wb_round_up size⟩)

/-- `vb2_workbuf_free` (2common.c lines 91-98): rewind the top by the
rounded-up size. -/
def vb2_workbuf_free (wb : Workbuf) (size : Nat) : Workbuf :=
  ⟨wb.buf - vb2_wb_round_up size, wb.size + vb2_wb_round_up size⟩

/-- `vb2_workbuf_realloc` (2common.c lines 79-89): free the old allocation,
then allocate the new size at the same position. -/
def vb2_workbuf_realloc (wb : Workbuf) (oldsize newsize : Nat) :
    Option (Int × Workbuf) :=
  vb2_workbuf_alloc (vb2_workbuf_free wb oldsize) newsize

/-! ## Signature verification (2common.c lines 150-231) -/

/-- `struct vb2_public_key`: the fields 2common.c reads.  Modelled from the
spec (the header defining the struct is not in the sources): algorithm tags
and the hardware-crypto permission bit. -/
structure PublicKey where
  sig_alg : Nat
  hash_alg : Nat
  allow_hwcrypto : Bool
deriving DecidableEq, Repr

/-- `struct vb2_signature`: the fields 2common.c reads.  Modelled from the
spec: signature size, signed-data size, and an abstract handle for the
signature bytes (`vb2_signature_data_mutable`). -/
structure Signature where
  sig_size : Nat
  data_size : Nat
  sig_data : Nat
deriving DecidableEq, Repr

/-- Which verification paths a `vb2_verify_digest` call invoked. -/
inductive VdCall where
  | hw
  | sw
deriving DecidableEq, Repr

/-- Environment of external and non-src crypto routines used by
`vb2_verify_digest` / `vb2_verify_data`: `vb2_rsa_sig_size`,
`vb2_digest_size`, the `vb2ex_hwcrypto_*` callbacks, `vb2_digest_buffer`,
and the software `vb2_rsa_verify_digest` (spec-modelled; per the spec it
verifies RSA-PKCS1v1.5 and reports digest-mismatch or padding-malformed).
`digest_value` abstracts the bytes of the computed digest. -/
structure CryptoEnv where
  rsa_sig_size : Nat → Nat
  digest_size : Nat → Nat
  hw_rsa_verify : PublicKey → Nat → Nat → Vb2Error
  sw_rsa_verify : PublicKey → Nat → Nat → Workbuf → Vb2Error
  hw_digest_init : Nat → Nat → Vb2Error
  hw_digest_extend : Nat → Nat → Vb2Error
  hw_digest_finalize : Nat → Vb2Error
  sw_digest_buffer : Nat → Nat → Nat → Nat → Vb2Error
  digest_value : Nat → Nat → Nat → Nat

/-- `vb2_verify_digest` (2common.c lines 150-183), instrumented with the list
of verification paths invoked: reject a wrong signature size, else try the
hardware engine when the key allows it, falling back to software only on
`VB2_ERROR_EX_HWCRYPTO_UNSUPPORTED`. -/
def vb2_verify_digest (env : CryptoEnv) (key : PublicKey) (sig : Signature)
    (digest : Nat) (wb : Workbuf) : Vb2Error × List VdCall :=
  if sig.sig_size ≠ env.rsa_sig_size key.sig_alg then (VDATA_SIG_SIZE, [])
  else if key.allow_hwcrypto then
    if env.hw_rsa_verify key sig.sig_data digest ≠ EX_HWCRYPTO_UNSUPPORTED then
      (env.hw_rsa_verify key sig.sig_data digest, [VdCall.hw])
    else (env.sw_rsa_verify key sig.sig_data digest wb, [VdCall.hw, VdCall.sw])
  else (env.sw_rsa_verify key sig.sig_data digest wb, [VdCall.sw])

/-- `vb2_verify_data` (2common.c lines 185-231): bounds check, allocate the
digest in a local copy of the work buffer, compute the digest by the
hardware engine / software fallback / software-only route, then verify it. -/
def vb2_verify_data (env : CryptoEnv) (data size : Nat) (sig : Signature)
    (key : PublicKey) (wb : Workbuf) : Vb2Error :=
  if sig.data_size > size then VDATA_NOT_ENOUGH_DATA
  else if env.digest_size key.hash_alg = 0 then VDATA_DIGEST_SIZE
  else
    match vb2_workbuf_alloc wb (env.digest_size key.hash_alg) with
    | none => VDATA_WORKBUF_DIGEST
    | some (_, wblocal) =>
      let step : Option Vb2Error :=
        if key.allow_hwcrypto then
          if env.hw_digest_init key.hash_alg sig.data_size = SUCCESS then
            if env.hw_digest_extend data sig.data_size ≠ SUCCESS then
              some (env.hw_digest_extend data sig.data_size)
            else if env.hw_digest_finalize (env.digest_size key.hash_alg) ≠
                SUCCESS then
              some (env.hw_digest_finalize (env.digest_size key.hash_alg))
            else none
          else if env.hw_digest_init key.hash_alg sig.data_size =
              EX_HWCRYPTO_UNSUPPORTED then
            if env.sw_digest_buffer data sig.data_size key.hash_alg
                (env.digest_size key.hash_alg) ≠ SUCCESS then
              some (env.sw_digest_buffer data sig.data_size key.hash_alg
                (env.digest_size key.hash_alg))
            else none
          else some (env.hw_digest_init key.hash_alg sig.data_size)
        else
          if env.sw_digest_buffer data sig.data_size key.hash_alg
              (env.digest_size key.hash_alg) ≠ SUCCESS then
            some (env.sw_digest_buffer data sig.data_size key.hash_alg
              (env.digest_size key.hash_alg))
          else none
      step.getD
        (vb2_verify_digest env key sig
          (env.digest_value data sig.data_size key.hash_alg) wblocal).1

/-- A concrete crypto environment for witnesses and counterexamples:
signatures are 64 bytes, digests 32 bytes, hardware RSA is unsupported, all
digest engines succeed, software RSA reports a digest mismatch. -/
def envDemo : CryptoEnv where
  rsa_sig_size := fun _ => 64
  digest_size := fun _ => 32
  hw_rsa_verify := fun _ _ _ => EX_HWCRYPTO_UNSUPPORTED
  sw_rsa_verify := fun _ _ _ _ => RSA_DIGEST_MISMATCH
  hw_digest_init := fun _ _ => SUCCESS
  hw_digest_extend := fun _ _ => SUCCESS
  hw_digest_finalize := fun _ => SUCCESS
  sw_digest_buffer := fun _ _ _ _ => SUCCESS
  digest_value := fun _ _ _ => 7

/-- A concrete public key without hardware-crypto permission. -/
def keyDemo : PublicKey := ⟨0, 0, false⟩

/-- A concrete public key with hardware-crypto permission. -/
def keyHwDemo : PublicKey := ⟨0, 0, true⟩

/-- A concrete signature claiming 5 bytes of signed data. -/
def sigDemo : Signature := ⟨64, 5, 0⟩

/-- A concrete 64-byte work buffer. -/
def wbDemo : Workbuf := ⟨0, 64⟩

/-! ## EC software sync (2ec_sync.c)

The `vb2_context` flags, shared-data flags, NV fields, and GBB flag this
module reads are carried in a single `World` record together with the trace
of external callbacks made so far.  The `vb2ex_*` EC callbacks are an oracle
scripted by the number of callbacks already made, which captures any possible
sequence of responses (including an update changing the hash read back). -/

/-- `enum vb2_firmware_selection`, the images 2ec_sync.c distinguishes. -/
inductive Sel where
  | readonly
  | ec_active
  | ec_update
deriving DecidableEq, Repr

/-- One external callback invocation performed during EC sync. -/
inductive EcOp where
  | running_rw
  | hash_image (s : Sel)
  | expected_hash (s : Sel)
  | update_image (s : Sel)
  | jump_to_rw
  | protect (s : Sel)
  | disable_jump
  | vboot_done
  | display_wait
deriving DecidableEq, Repr

/-- `VB2_SD_FLAG_ECSYNC_EC_RO` (2struct.h line 53): EC-RO needs update. -/
def VB2_SD_FLAG_ECSYNC_EC_RO : Nat := 8

/-- `VB2_SD_FLAG_ECSYNC_EC_RW` (2struct.h line 54): EC-RW needs update. -/
def VB2_SD_FLAG_ECSYNC_EC_RW : Nat := 16

/-- `VB2_SD_FLAG_ECSYNC_EC_IN_RW` (2struct.h line 58). -/
def VB2_SD_FLAG_ECSYNC_EC_IN_RW : Nat := 64

/-- `VB2_SD_FLAG_DISPLAY_AVAILABLE` (2struct.h line 62). -/
def VB2_SD_FLAG_DISPLAY_AVAILABLE : Nat := 256

/-- `VB2_SD_STATUS_EC_SYNC_COMPLETE`: modelled (its defining header line is
not in the sources); 2ec_sync.c tests and sets it on `sd->flags`, so it is
a bit distinct from the flags above. -/
def VB2_SD_STATUS_EC_SYNC_COMPLETE : Nat := 2048

/-- `VB2_CONTEXT_RECOVERY_MODE`: modelled (2api.h not in the sources) as a
context-flag bit distinct from the others used here. -/
def VB2_CONTEXT_RECOVERY_MODE : Nat := 2

/-- `VB2_CONTEXT_EC_SYNC_SUPPORTED`: modelled (2api.h not in the sources). -/
def VB2_CONTEXT_EC_SYNC_SUPPORTED : Nat := 16

/-- `VB2_CONTEXT_EC_SYNC_SLOW`: modelled (2api.h not in the sources). -/
def VB2_CONTEXT_EC_SYNC_SLOW : Nat := 32

/-- `VB2_CONTEXT_EC_EFS` (EC RW-A/B support): modelled (2api.h not in the
sources). -/
def VB2_CONTEXT_EC_EFS : Nat := 4096

/-- `VB2_GBB_FLAG_DISABLE_EC_SOFTWARE_SYNC`: modelled (2gbb_flags.h not in
the sources). -/
def VB2_GBB_FLAG_DISABLE_EC_SOFTWARE_SYNC : Nat := 512

/-- Recovery-reason codes (2recovery.h not in the sources): modelled as
distinct nonzero values. -/
def VB2_RECOVERY_EC_HASH_FAILED : Nat := 35

/-- Modelled recovery-reason code; see `VB2_RECOVERY_EC_HASH_FAILED`. -/
def VB2_RECOVERY_EC_EXPECTED_HASH : Nat := 36

/-- Modelled recovery-reason code; see `VB2_RECOVERY_EC_HASH_FAILED`. -/
def VB2_RECOVERY_EC_HASH_SIZE : Nat := 37

/-- Modelled recovery-reason code; see `VB2_RECOVERY_EC_HASH_FAILED`. -/
def VB2_RECOVERY_EC_UPDATE : Nat := 38

/-- Modelled recovery-reason code; see `VB2_RECOVERY_EC_HASH_FAILED`. -/
def VB2_RECOVERY_EC_JUMP_RW : Nat := 39

/-- Modelled recovery-reason code; see `VB2_RECOVERY_EC_HASH_FAILED`. -/
def VB2_RECOVERY_EC_UNKNOWN_IMAGE : Nat := 40

/-- Modelled recovery-reason code; see `VB2_RECOVERY_EC_HASH_FAILED`. -/
def VB2_RECOVERY_EC_PROTECT : Nat := 41

/-- Modelled recovery-reason code; see `VB2_RECOVERY_EC_HASH_FAILED`. -/
def VB2_RECOVERY_EC_SOFTWARE_SYNC : Nat := 42

/-- The mutable state EC sync operates on: context flags (read-only here),
GBB flags, `vb2_shared_data` flags and recovery reason, the three NV fields
this module touches, and the trace of callbacks made. -/
structure World where
  ctx_flags : Nat
  gbb_flags : Nat
  sd_flags : Nat
  recovery_reason : Nat
  nv_recovery_request : Nat
  nv_display_request : Nat
  nv_try_ro_sync : Nat
  trace : List EcOp
deriving DecidableEq, Repr

/-- Scripted responses of the `vb2ex_*` callbacks; each function receives the
number of callbacks made so far, so responses may differ across retries. -/
structure EcOracle where
  running_rw : Nat → Except Vb2Error Bool
  hash_image : Sel → Nat → Except Vb2Error (List Nat)
  expected_hash : Sel → Nat → Except Vb2Error (List Nat)
  update_image : Sel → Nat → Vb2Error
  jump_to_rw : Nat → Vb2Error
  protect : Sel → Nat → Vb2Error
  disable_jump : Nat → Vb2Error
  vboot_done : Nat → Vb2Error

/-- Append a callback invocation to the trace. -/
def recordOp (w : World) (op : EcOp) : World :=
  { w with trace := w.trace ++ [op] }

/-- The `SYNC_FLAG` macro (2ec_sync.c line 18). -/
def SYNC_FLAG (s : Sel) : Nat :=
  if s = Sel.readonly then VB2_SD_FLAG_ECSYNC_EC_RO else VB2_SD_FLAG_ECSYNC_EC_RW

/-- `request_recovery` (2ec_sync.c line 47): write the NV recovery request. -/
def request_recovery (w : World) (r : Nat) : World :=
  { w with nv_recovery_request := r }

/-- Clear a single-bit flag (`flags &= ~bit` for a power-of-two bit). -/
def clearFlag (x b : Nat) : Nat := if x &&& b = 0 then x else x ^^^ b

/-- `check_ec_hash` (2ec_sync.c lines 110-148): read the live and expected
hashes; on fetch error request recovery and fail; on size mismatch likewise;
on content mismatch (constant-time compare) set the needs-update flag and
succeed. -/
def check_ec_hash (env : EcOracle) (w : World) (sel : Sel) :
    Vb2Error × World :=
  let r1 := env.hash_image sel w.trace.length
  let w := recordOp w (EcOp.hash_image sel)
  match r1 with
  | Except.error _ =>
    (EC_HASH_IMAGE, request_recovery w VB2_RECOVERY_EC_HASH_FAILED)
  | Except.ok ec_hash =>
    let r2 := env.expected_hash sel w.trace.length
    let w := recordOp w (EcOp.expected_hash sel)
    match r2 with
    | Except.error _ =>
      (EC_HASH_EXPECTED, request_recovery w VB2_RECOVERY_EC_EXPECTED_HASH)
    | Except.ok hash =>
      if ec_hash.length ≠ hash.length then
        (EC_HASH_SIZE, request_recovery w VB2_RECOVERY_EC_HASH_SIZE)
      else if vb2_safe_memcmp (fun i => ec_hash.getD i 0)
          (fun i => hash.getD i 0) hash.length ≠ 0 then
        (SUCCESS, { w with sd_flags := w.sd_flags ||| SYNC_FLAG sel })
      else (SUCCESS, w)

/-- `update_ec` (2ec_sync.c lines 157-195): write the image (errors other
than reboot-to-RO request recovery), then clear the needs-update flag and
re-check the hash; a failed re-check or a persisting mismatch forces
reboot-to-RO. -/
def update_ec (env : EcOracle) (w : World) (sel : Sel) : Vb2Error × World :=
  let rv := env.update_image sel w.trace.length
  let w := recordOp w (EcOp.update_image sel)
  if rv ≠ SUCCESS then
    (rv, if rv ≠ EC_REBOOT_TO_RO_REQUIRED then
      request_recovery w VB2_RECOVERY_EC_UPDATE else w)
  else
    let w := { w with sd_flags := clearFlag w.sd_flags (SYNC_FLAG sel) }
    match check_ec_hash env w sel with
    | (rc, w) =>
      if rc ≠ SUCCESS then (EC_REBOOT_TO_RO_REQUIRED, w)
      else if w.sd_flags &&& SYNC_FLAG sel ≠ 0 then
        (EC_REBOOT_TO_RO_REQUIRED, request_recovery w VB2_RECOVERY_EC_UPDATE)
      else (SUCCESS, w)

/-- `check_ec_active` (2ec_sync.c lines 203-225): ask whether the EC runs RW;
failure requests recovery and forces reboot-to-RO, success records the
in-RW flag. -/
def check_ec_active (env : EcOracle) (w : World) : Vb2Error × World :=
  let r := env.running_rw w.trace.length
  let w := recordOp w EcOp.running_rw
  match r with
  | Except.error _ =>
    (EC_REBOOT_TO_RO_REQUIRED,
     request_recovery w VB2_RECOVERY_EC_UNKNOWN_IMAGE)
  | Except.ok in_rw =>
    (SUCCESS, if in_rw then
      { w with sd_flags := w.sd_flags ||| VB2_SD_FLAG_ECSYNC_EC_IN_RW }
     else w)

/-- `protect_ec` (2ec_sync.c lines 57-69): write-protect an image; the
reboot-to-RO answer passes through unchanged, any other error requests
recovery. -/
def protect_ec (env : EcOracle) (w : World) (sel : Sel) : Vb2Error × World :=
  let rv := env.protect sel w.trace.length
  let w := recordOp w (EcOp.protect sel)
  if rv = EC_REBOOT_TO_RO_REQUIRED then (rv, w)
  else if rv ≠ SUCCESS then (rv, request_recovery w VB2_RECOVERY_EC_PROTECT)
  else (rv, w)

/-- `RO_RETRIES` (2ec_sync.c line 227). -/
def RO_RETRIES : Nat := 2

/-- The `for (num_tries ...)` loop of `sync_ec` (2ec_sync.c lines 297-302):
`some k` when an attempt succeeded after `k` failures, `none` when the fuel
(`RO_RETRIES`) is exhausted. -/
def ro_update_loop (env : EcOracle) : Nat → World → Option Nat × World
  | 0, w => (none, w)
  | Nat.succ fuel, w =>
    match update_ec env w Sel.readonly with
    | (rv, w1) =>
      if rv = SUCCESS then (some 0, w1)
      else match ro_update_loop env fuel w1 with
        | (some k, w2) => (some (k + 1), w2)
        | (none, w2) => (none, w2)

/-- Tail of `sync_ec` (2ec_sync.c lines 315-333): protect RO, protect the
active RW image, disable further sysjumps. -/
def sync_ec_tail (env : EcOracle) (w : World) : Vb2Error × World :=
  let select_rw := if w.ctx_flags &&& VB2_CONTEXT_EC_EFS ≠ 0 then
    Sel.ec_update else Sel.ec_active
  match protect_ec env w Sel.readonly with
  | (rv, w1) =>
    if rv ≠ SUCCESS then (rv, w1)
    else match protect_ec env w1 select_rw with
    | (rv2, w2) =>
      if rv2 ≠ SUCCESS then (rv2, w2)
      else
        let rv3 := env.disable_jump w2.trace.length
        let w3 := recordOp w2 EcOp.disable_jump
        if rv3 ≠ SUCCESS then
          (EC_REBOOT_TO_RO_REQUIRED,
           request_recovery w3 VB2_RECOVERY_EC_SOFTWARE_SYNC)
        else (rv3, w3)

/-- RO phase of `sync_ec` (2ec_sync.c lines 280-313): reset the try-RO-sync
NV flag, snapshot the recovery request, retry the RO update up to
`RO_RETRIES` times, restore the snapshot if a retry succeeded after a
failure. -/
def sync_ec_after_jump (env : EcOracle) (w : World) : Vb2Error × World :=
  if w.sd_flags &&& VB2_SD_FLAG_ECSYNC_EC_RO ≠ 0 then
    let w1 := { w with nv_try_ro_sync := 0 }
    let saved := w1.nv_recovery_request
    match ro_update_loop env RO_RETRIES w1 with
    | (none, w2) => (EC_REBOOT_TO_RO_REQUIRED, w2)
    | (some k, w2) =>
      sync_ec_tail env (if k ≠ 0 then request_recovery w2 saved else w2)
  else sync_ec_tail env w

/-- Jump phase of `sync_ec` (2ec_sync.c lines 258-277): jump to EC-RW if the
EC is not already there; the reboot-to-RO answer passes through, any other
error requests recovery; either way a failed jump forces reboot-to-RO. -/
def sync_ec_after_rw (env : EcOracle) (w : World) : Vb2Error × World :=
  if w.sd_flags &&& VB2_SD_FLAG_ECSYNC_EC_IN_RW = 0 then
    let rv := env.jump_to_rw w.trace.length
    let w1 := recordOp w EcOp.jump_to_rw
    if rv ≠ SUCCESS then
      (EC_REBOOT_TO_RO_REQUIRED,
       if rv ≠ EC_REBOOT_TO_RO_REQUIRED then
         request_recovery w1 VB2_RECOVERY_EC_JUMP_RW else w1)
    else sync_ec_after_jump env w1
  else sync_ec_after_jump env w

/-- `sync_ec` (2ec_sync.c lines 235-334): update the RW image if flagged
(on RW-A/B devices a successful update returns reboot-to-switch-RW at once),
then jump, RO-sync, protect, and disable jumps. -/
def sync_ec (env : EcOracle) (w : World) : Vb2Error × World :=
  let is_rw_ab := w.ctx_flags &&& VB2_CONTEXT_EC_EFS ≠ 0
  let select_rw := if is_rw_ab then Sel.ec_update else Sel.ec_active
  if w.sd_flags &&& SYNC_FLAG select_rw ≠ 0 then
    match update_ec env w select_rw with
    | (rv, w1) =>
      if rv ≠ SUCCESS then (EC_REBOOT_TO_RO_REQUIRED, w1)
      else if is_rw_ab then (EC_REBOOT_TO_SWITCH_RW, w1)
      else sync_ec_after_rw env w1
  else sync_ec_after_rw env w

/-- Final check of `ec_sync_phase1` (2ec_sync.c lines 378-384): running the
RW image that needs an update, without RW-A/B support, forces reboot-to-RO. -/
def ec_sync_phase1_final (w : World) : Vb2Error × World :=
  if w.sd_flags &&& VB2_SD_FLAG_ECSYNC_EC_RW ≠ 0 ∧
      w.sd_flags &&& VB2_SD_FLAG_ECSYNC_EC_IN_RW ≠ 0 ∧
      w.ctx_flags &&& VB2_CONTEXT_EC_EFS = 0 then
    (EC_REBOOT_TO_RO_REQUIRED, w)
  else (SUCCESS, w)

/-- `ec_sync_phase1` (2ec_sync.c lines 347-385). -/
def ec_sync_phase1 (env : EcOracle) (w : World) : Vb2Error × World :=
  if w.ctx_flags &&& VB2_CONTEXT_EC_SYNC_SUPPORTED = 0 then (SUCCESS, w)
  else if w.gbb_flags &&& VB2_GBB_FLAG_DISABLE_EC_SOFTWARE_SYNC ≠ 0 then
    (SUCCESS, w)
  else
    match check_ec_active env w with
    | (rv, w1) =>
      if rv ≠ SUCCESS then (EC_REBOOT_TO_RO_REQUIRED, w1)
      else match check_ec_hash env w1 Sel.ec_active with
      | (rv2, w2) =>
        if rv2 ≠ SUCCESS then (EC_REBOOT_TO_RO_REQUIRED, w2)
        else if w2.nv_try_ro_sync ≠ 0 then
          match check_ec_hash env w2 Sel.readonly with
          | (rv3, w3) =>
            if rv3 ≠ SUCCESS then (EC_REBOOT_TO_RO_REQUIRED, w3)
            else ec_sync_phase1_final w3
        else ec_sync_phase1_final w2

/-- `ec_will_update_slowly` (2ec_sync.c lines 397-404). -/
def ec_will_update_slowly (w : World) : Bool :=
  (w.sd_flags &&& VB2_SD_FLAG_ECSYNC_EC_RO != 0 ||
   w.sd_flags &&& VB2_SD_FLAG_ECSYNC_EC_RW != 0) &&
  (w.ctx_flags &&& VB2_CONTEXT_EC_SYNC_SLOW != 0)

/-- `ec_sync_allowed` (2ec_sync.c lines 413-426). -/
def ec_sync_allowed (w : World) : Bool :=
  if w.ctx_flags &&& VB2_CONTEXT_EC_SYNC_SUPPORTED = 0 then false
  else if w.gbb_flags &&& VB2_GBB_FLAG_DISABLE_EC_SOFTWARE_SYNC ≠ 0 then false
  else if w.recovery_reason ≠ 0 then false
  else true

/-- `ec_sync_phase2` (2ec_sync.c lines 442-449). -/
def ec_sync_phase2 (env : EcOracle) (w : World) : Vb2Error × World :=
  if ec_sync_allowed w then sync_ec env w else (SUCCESS, w)

/-- `check_reboot_for_display` (2ec_sync.c lines 25-33): request the display
in NV and report 1 when no display is available. -/
def check_reboot_for_display (w : World) : Nat × World :=
  if w.sd_flags &&& VB2_SD_FLAG_DISPLAY_AVAILABLE = 0 then
    (1, { w with nv_display_request := 1 })
  else (0, w)

/-- `display_wait_screen` (2ec_sync.c lines 38-42). -/
def display_wait_screen (w : World) : World := recordOp w EcOp.display_wait

/-- Tail of `vb2api_ec_sync` after the display check (2ec_sync.c lines
481-500): propagate a phase-1 error, show the wait screen when needed, run
phase 2, notify the platform, then record sync completion. -/
def vb2api_ec_sync_rest (env : EcOracle) (phase1_rv : Vb2Error)
    (need_wait : Bool) (w : World) : Vb2Error × World :=
  if phase1_rv ≠ SUCCESS then (phase1_rv, w)
  else
    let w1 := if need_wait then display_wait_screen w else w
    match ec_sync_phase2 env w1 with
    | (rv, w2) =>
      if rv ≠ SUCCESS then (rv, w2)
      else
        let rv3 := env.vboot_done w2.trace.length
        let w3 := recordOp w2 EcOp.vboot_done
        if rv3 ≠ SUCCESS then (rv3, w3)
        else (SUCCESS,
          { w3 with sd_flags := w3.sd_flags ||| VB2_SD_STATUS_EC_SYNC_COMPLETE })

/-- `vb2api_ec_sync` (2ec_sync.c lines 451-501). -/
def vb2api_ec_sync (env : EcOracle) (w : World) : Vb2Error × World :=
  if w.sd_flags &&& VB2_SD_STATUS_EC_SYNC_COMPLETE ≠ 0 then (SUCCESS, w)
  else if w.ctx_flags &&& VB2_CONTEXT_RECOVERY_MODE ≠ 0 then (SUCCESS, w)
  else
    match ec_sync_phase1 env w with
    | (phase1_rv, w1) =>
      if ec_will_update_slowly w1 then
        match check_reboot_for_display w1 with
        | (r, w2) =>
          if r ≠ 0 then (REBOOT_REQUIRED, w2)
          else vb2api_ec_sync_rest env phase1_rv true w2
      else vb2api_ec_sync_rest env phase1_rv false w1

/-- Number of RO-image update attempts recorded in a trace. -/
def countRoUpdates (t : List EcOp) : Nat :=
  t.countP (fun op => decide (op = EcOp.update_image Sel.readonly))

/-- Number of jump / RO-update / protect / disable-jump operations in a
trace (the state-machine steps after a successful RW update on an A/B
device). -/
def countTailOps (t : List EcOp) : Nat :=
  t.countP (fun op => decide (op = EcOp.jump_to_rw ∨ op = EcOp.disable_jump ∨
    op = EcOp.protect Sel.readonly ∨ op = EcOp.protect Sel.ec_active ∨
    op = EcOp.protect Sel.ec_update ∨ op = EcOp.update_image Sel.readonly))

/-- A benign EC oracle: every callback succeeds and the hashes match. -/
def envEc0 : EcOracle where
  running_rw := fun _ => Except.ok true
  hash_image := fun _ _ => Except.ok [1]
  expected_hash := fun _ _ => Except.ok [1]
  update_image := fun _ _ => SUCCESS
  jump_to_rw := fun _ => SUCCESS
  protect := fun _ _ => SUCCESS
  disable_jump := fun _ => SUCCESS
  vboot_done := fun _ => SUCCESS

/-- A world in recovery mode (recovery context flag set, nonzero recovery
reason, EC-sync-complete bit clear). -/
def worldRec : World :=
  ⟨VB2_CONTEXT_RECOVERY_MODE, 0, 0, 1, 0, 0, 0, []⟩

/-- A world with EC sync unsupported (context flags zero): the whole sync is
a successful no-op that still records completion. -/
def worldPlain : World := ⟨0, 0, 0, 0, 0, 0, 0, []⟩

/-- An oracle whose expected hash never matches the live hash (every callback
succeeds otherwise). -/
def envMismatch : EcOracle where
  running_rw := fun _ => Except.ok true
  hash_image := fun _ _ => Except.ok [1]
  expected_hash := fun _ _ => Except.ok [2]
  update_image := fun _ _ => SUCCESS
  jump_to_rw := fun _ => SUCCESS
  protect := fun _ _ => SUCCESS
  disable_jump := fun _ => SUCCESS
  vboot_done := fun _ => SUCCESS

/-- An oracle whose image update fails on the first call and succeeds on
retries, with matching hashes afterwards. -/
def envRetry : EcOracle where
  running_rw := fun _ => Except.ok true
  hash_image := fun _ _ => Except.ok [1]
  expected_hash := fun _ _ => Except.ok [1]
  update_image := fun _ t => if t = 0 then other 1 else SUCCESS
  jump_to_rw := fun _ => SUCCESS
  protect := fun _ _ => SUCCESS
  disable_jump := fun _ => SUCCESS
  vboot_done := fun _ => SUCCESS

/-- A world pending RO software sync with the EC already in RW. -/
def worldRoPending : World :=
  ⟨0, 0, VB2_SD_FLAG_ECSYNC_EC_RO ||| VB2_SD_FLAG_ECSYNC_EC_IN_RW,
   0, 0, 0, 0, []⟩

/-- A world on an RW-A/B device whose RW image needs an update. -/
def worldAbRw : World :=
  ⟨VB2_CONTEXT_EC_EFS, 0, VB2_SD_FLAG_ECSYNC_EC_RW, 0, 0, 0, 0, []⟩

/-- A world with EC sync supported and slow, no display available. -/
def worldSlow : World :=
  ⟨VB2_CONTEXT_EC_SYNC_SUPPORTED ||| VB2_CONTEXT_EC_SYNC_SLOW,
   0, 0, 0, 0, 0, 0, []⟩

/-! ## Helper lemmas on `Nat` bitwise operations -/

/-- A bitwise OR of naturals is zero exactly when both operands are. -/
theorem nat_or_eq_zero_iff (x y : Nat) : x ||| y = 0 ↔ x = 0 ∧ y = 0 := by
  constructor
  · intro h
    have hx : ∀ i, x.testBit i = false ∧ y.testBit i = false := by
      intro i
      have h2 := congrArg (fun t => Nat.testBit t i) h
      simp only [Nat.testBit_lor, Nat.zero_testBit, Bool.or_eq_false_iff] at h2
      exact h2
    exact ⟨Nat.eq_of_testBit_eq (fun i => by simp [(hx i).1]),
           Nat.eq_of_testBit_eq (fun i => by simp [(hx i).2])⟩
  · rintro ⟨rfl, rfl⟩; rfl

/-- ORing in a single-bit flag makes the corresponding AND-mask test succeed. -/
theorem nat_or_pow_and_pow (x k : Nat) : (x ||| 2 ^ k) &&& 2 ^ k = 2 ^ k := by
  apply Nat.eq_of_testBit_eq
  intro i
  simp only [Nat.testBit_and, Nat.testBit_lor]
  rcases eq_or_ne i k with h | h
  · subst h; simp [Nat.testBit_two_pow_self]
  · simp [Nat.testBit_two_pow_of_ne (Ne.symm h)]

/-- ORing in the EC-sync-complete bit (2048) makes its mask test nonzero. -/
theorem or_complete_bit_ne (x : Nat) : (x ||| 2048) &&& 2048 ≠ 0 := by
  have h := nat_or_pow_and_pow x 11
  norm_num at h
  omega

/-! ## Frame lemmas about the EC-sync callback trace -/

/-- An RW(update) image update performs no jump / protect / disable-jump /
RO-update operations. -/
theorem countTail_update_ec_up (env : EcOracle) (w : World) :
    countTailOps (update_ec env w Sel.ec_update).2.trace =
      countTailOps w.trace := by
  unfold update_ec check_ec_hash
  simp only [recordOp, request_recovery]
  repeat' split
  all_goals simp [countTailOps, List.countP_append, List.countP_cons]

/-- An RO hash check performs no RO-update operations. -/
theorem countRo_check (env : EcOracle) (w : World) :
    countRoUpdates (check_ec_hash env w Sel.readonly).2.trace =
      countRoUpdates w.trace := by
  unfold check_ec_hash
  simp only [recordOp, request_recovery]
  repeat' split
  all_goals simp [countRoUpdates, List.countP_append, List.countP_cons]

/-- An RO image update performs exactly one RO-update operation. -/
theorem countRo_update (env : EcOracle) (w : World) :
    countRoUpdates (update_ec env w Sel.readonly).2.trace =
      countRoUpdates w.trace + 1 := by
  unfold update_ec check_ec_hash
  simp only [recordOp, request_recovery]
  repeat' split
  all_goals simp [countRoUpdates, List.countP_append, List.countP_cons]

/-- Write-protecting an image performs no RO-update operations. -/
theorem countRo_protect (env : EcOracle) (w : World) (s : Sel) :
    countRoUpdates (protect_ec env w s).2.trace = countRoUpdates w.trace := by
  unfold protect_ec
  simp only [recordOp, request_recovery]
  repeat' split
  all_goals simp [countRoUpdates, List.countP_append, List.countP_cons]

/-- The protect / disable-jump tail performs no RO-update operations. -/
theorem countRo_tail (env : EcOracle) (w : World) :
    countRoUpdates (sync_ec_tail env w).2.trace = countRoUpdates w.trace := by
  unfold sync_ec_tail
  rcases hp : protect_ec env w Sel.readonly with ⟨rv, w1⟩
  have h1 := countRo_protect env w Sel.readonly
  rw [hp] at h1
  rcases hp2 : protect_ec env w1
      (if w.ctx_flags &&& VB2_CONTEXT_EC_EFS ≠ 0 then Sel.ec_update
       else Sel.ec_active) with ⟨rv2, w2⟩
  have h2 := countRo_protect env w1
      (if w.ctx_flags &&& VB2_CONTEXT_EC_EFS ≠ 0 then Sel.ec_update
       else Sel.ec_active)
  rw [hp2] at h2
  simp only [hp, hp2]
  repeat' split
  all_goals simp_all [recordOp, request_recovery, countRoUpdates,
    List.countP_append, List.countP_cons]

/-- The RO update loop with fuel `n` performs at most `n` RO-update
operations. -/
theorem countRo_loop (env : EcOracle) :
    ∀ n w, countRoUpdates (ro_update_loop env n w).2.trace ≤
      countRoUpdates w.trace + n := by
  intro n
  induction n with
  | zero => intro w; simp [ro_update_loop]
  | succ k ih =>
    intro w
    unfold ro_update_loop
    rcases hu : update_ec env w Sel.readonly with ⟨rv, w1⟩
    have hc := countRo_update env w
    rw [hu] at hc
    dsimp only at hc
    have hi := ih w1
    rcases hl : ro_update_loop env k w1 with ⟨res, w2⟩
    rw [hl] at hi
    dsimp only at hi
    dsimp only
    split_ifs
    · dsimp only
      omega
    · rw [hl]
      cases res <;> dsimp only <;> omega

/-- Unfolding equation for one RO update attempt. -/
theorem ro_update_loop_succ (env : EcOracle) (fuel : Nat) (w : World) :
    ro_update_loop env (fuel + 1) w =
      match update_ec env w Sel.readonly with
      | (rv, w1) =>
        if rv = SUCCESS then (some 0, w1)
        else match ro_update_loop env fuel w1 with
          | (some k, w2) => (some (k + 1), w2)
          | (none, w2) => (none, w2) := rfl

/-! ## Claim theorems: bounds checker and constant-time compare -/

set_option maxHeartbeats 2000000 in
/-- C1: for every parent buffer and every (member, member size, data offset,
data size) in the C types' ranges, with the member's offset from the parent
and the data-offset sum representable in `ptrdiff_t` (the preconditions of
the C pointer arithmetic), `vb2_verify_member_inside` returns success exactly
when member and data lie fully inside the parent without the data overlapping
the member header, and otherwise the distinct error kind for the violated
condition — parent-wraps, member-wraps, member-outside, data-overlaps-member,
data-wraps, data-outside — as expressed by `member_inside_claim` over exact
integer arithmetic on the member's offset `member - parent`. -/
theorem vb2_verify_member_inside_spec
    (parent psize member msize mdoff dsize : Int)
    (hpar : 0 ≤ parent) (hpar2 : parent < U64)
    (hmem : 0 ≤ member) (hmem2 : member < U64)
    (hps : 0 ≤ psize) (hps2 : psize < U64)
    (hms : 0 ≤ msize) (hms2 : msize < U64)
    (hds : 0 ≤ dsize) (hds2 : dsize < U64)
    (hmd : -P63 ≤ mdoff) (hmd2 : mdoff < P63)
    (hoff : -P63 ≤ member - parent) (hoff2 : member - parent < P63)
    (hdo : -P63 ≤ member - parent + mdoff) (hdo2 : member - parent + mdoff < P63) :
    vb2_verify_member_inside parent psize member msize mdoff dsize =
      member_inside_claim parent psize (member - parent) msize mdoff dsize := by
  unfold vb2_verify_member_inside member_inside_claim vb2_offset_of toSigned U64 P63 at *
  split_ifs <;> first | rfl | omega

/-- Witness for C1 at a concrete input (the first C unit-test vector with a
nonzero member offset): all hypotheses hold and both sides agree. -/
theorem vb2_verify_member_inside_spec_witness :
    ((0 : Int) ≤ 4096 ∧ (4096 : Int) < U64 ∧ (0 : Int) ≤ 4100 ∧
      (4100 : Int) < U64 ∧ (0 : Int) ≤ 20 ∧ (20 : Int) < U64 ∧
      (0 : Int) ≤ 4 ∧ (4 : Int) < U64 ∧ (0 : Int) ≤ 4 ∧ (4 : Int) < U64 ∧
      -P63 ≤ (8 : Int) ∧ (8 : Int) < P63 ∧
      -P63 ≤ (4100 : Int) - 4096 ∧ (4100 : Int) - 4096 < P63 ∧
      -P63 ≤ (4100 : Int) - 4096 + 8 ∧ (4100 : Int) - 4096 + 8 < P63) ∧
    vb2_verify_member_inside 4096 20 4100 4 8 4 =
      member_inside_claim 4096 20 (4100 - 4096) 4 8 4 :=
  ⟨by decide,
   vb2_verify_member_inside_spec 4096 20 4100 4 8 4 (by decide) (by decide)
     (by decide) (by decide) (by decide) (by decide) (by decide) (by decide)
     (by decide) (by decide) (by decide) (by decide) (by decide) (by decide)
     (by decide) (by decide)⟩

/-- C2: `vb2_safe_memcmp` returns 0 if and only if the first `n` bytes of the
two buffers are equal; in particular it returns 0 whenever `n = 0`, whatever
the buffer contents. -/
theorem vb2_safe_memcmp_spec (s1 s2 : Nat → Nat) (n : Nat) :
    (vb2_safe_memcmp s1 s2 n = 0 ↔ ∀ i < n, s1 i % 256 = s2 i % 256) ∧
    (n = 0 → vb2_safe_memcmp s1 s2 n = 0) := by
  have acc : ∀ m, memcmpAcc s1 s2 m = 0 ↔ ∀ i < m, s1 i % 256 = s2 i % 256 := by
    intro m
    induction m with
    | zero => simp [memcmpAcc]
    | succ k ih =>
      rw [memcmpAcc, nat_or_eq_zero_iff, ih, Nat.xor_eq_zero]
      constructor
      · rintro ⟨h1, h2⟩ i hi
        rcases Nat.lt_succ_iff_lt_or_eq.mp hi with h | rfl
        · exact h1 i h
        · exact h2
      · intro h
        exact ⟨fun i hi => h i (Nat.lt_succ_of_lt hi), h k (Nat.lt_succ_self k)⟩
  constructor
  · rw [vb2_safe_memcmp]
    split_ifs with h0 hne
    · subst h0; simp
    · exact iff_of_false (by norm_num) (fun hall => hne ((acc n).mpr hall))
    · exact iff_of_true rfl ((acc n).mp (not_not.mp hne))
  · intro h; subst h; rfl

/-- C8: if the most recent allocation of `oldn` bytes from `wb` returned the
pointer `p`, then `vb2_workbuf_realloc` on the resulting buffer succeeds with
the identical pointer `p` (freeing `oldn` and re-allocating `newn` at the
same position), and it fails exactly when the rounded-up `newn` exceeds the
space that was available from `p`. -/
theorem vb2_workbuf_realloc_spec (wb : Workbuf) (oldn newn : Nat) (p : Int)
    (wb1 : Workbuf) (h : vb2_workbuf_alloc wb oldn = some (p, wb1)) :
    (vb2_workbuf_realloc wb1 oldn newn =
      if vb2_wb_round_up newn ≤ wb.size then
        some (p, ⟨p + vb2_wb_round_up newn, wb.size - vb2_wb_round_up newn⟩)
      else none) ∧
    (∀ q wb2, vb2_workbuf_realloc wb1 oldn newn = some (q, wb2) → q = p) ∧
    (vb2_workbuf_realloc wb1 oldn newn = none ↔
      wb.size < vb2_wb_round_up newn) := by
  unfold vb2_workbuf_alloc at h
  split_ifs at h with hc
  simp only [Option.some.injEq, Prod.mk.injEq] at h
  obtain ⟨h1, h2⟩ := h
  subst h1
  subst h2
  have hr : vb2_wb_round_up oldn ≤ wb.size := Nat.le_of_not_lt hc
  have hfix : wb.size - vb2_wb_round_up oldn + vb2_wb_round_up oldn =
      wb.size := Nat.sub_add_cancel hr
  have hbuf : wb.buf + ↑(vb2_wb_round_up oldn) - ↑(vb2_wb_round_up oldn) =
      wb.buf := by ring
  unfold vb2_workbuf_realloc vb2_workbuf_free vb2_workbuf_alloc
  simp only [hfix, hbuf]
  refine ⟨?_, ?_, ?_⟩
  · split_ifs with h3 h4 <;> first | rfl | omega
  · intro q wb2 hq
    split_ifs at hq
    simp only [Option.some.injEq, Prod.mk.injEq] at hq
    exact hq.1.symm
  · split_ifs with h3
    · exact iff_of_true rfl h3
    · exact iff_of_false (by simp) (by omega)

/-- Witness for C8: allocating 6 bytes from a 64-byte buffer then
reallocating to 21 bytes returns the same pointer (the C unit-test
"Workbuf realloc" scenario). -/
theorem vb2_workbuf_realloc_spec_witness :
    vb2_workbuf_alloc ⟨0, 64⟩ 6 = some (0, ⟨16, 48⟩) ∧
    ((vb2_workbuf_realloc ⟨16, 48⟩ 6 21 =
      if vb2_wb_round_up 21 ≤ (64 : Nat) then
        some (0, ⟨0 + vb2_wb_round_up 21, 64 - vb2_wb_round_up 21⟩)
      else none) ∧
    (∀ q wb2, vb2_workbuf_realloc ⟨16, 48⟩ 6 21 = some (q, wb2) → q = 0) ∧
    (vb2_workbuf_realloc ⟨16, 48⟩ 6 21 = none ↔
      (64 : Nat) < vb2_wb_round_up 21)) :=
  ⟨by decide, vb2_workbuf_realloc_spec ⟨0, 64⟩ 6 21 0 ⟨16, 48⟩ (by decide)⟩

/-- C3: `vb2_verify_digest` rejects a wrong signature size without invoking
any verification path; with a correct size and a key that permits hardware
crypto, any hardware result other than unsupported is returned verbatim
(only the hardware path ran), and only the unsupported result falls through
to the software path. -/
theorem vb2_verify_digest_spec (env : CryptoEnv) (key : PublicKey)
    (sig : Signature) (digest : Nat) (wb : Workbuf) :
    (sig.sig_size ≠ env.rsa_sig_size key.sig_alg →
      vb2_verify_digest env key sig digest wb = (VDATA_SIG_SIZE, [])) ∧
    (sig.sig_size = env.rsa_sig_size key.sig_alg → key.allow_hwcrypto = true →
      env.hw_rsa_verify key sig.sig_data digest ≠ EX_HWCRYPTO_UNSUPPORTED →
      vb2_verify_digest env key sig digest wb =
        (env.hw_rsa_verify key sig.sig_data digest, [VdCall.hw])) ∧
    (sig.sig_size = env.rsa_sig_size key.sig_alg → key.allow_hwcrypto = true →
      env.hw_rsa_verify key sig.sig_data digest = EX_HWCRYPTO_UNSUPPORTED →
      vb2_verify_digest env key sig digest wb =
        (env.sw_rsa_verify key sig.sig_data digest wb,
          [VdCall.hw, VdCall.sw])) := by
  refine ⟨?_, ?_, ?_⟩ <;> intros <;> simp_all [vb2_verify_digest]

/-- Witness for C3: with the demo environment, a hardware-permitted key, and
an unsupported hardware engine, verification falls through to software. -/
theorem vb2_verify_digest_spec_witness :
    (sigDemo.sig_size = envDemo.rsa_sig_size keyHwDemo.sig_alg ∧
      keyHwDemo.allow_hwcrypto = true ∧
      envDemo.hw_rsa_verify keyHwDemo sigDemo.sig_data 7 =
        EX_HWCRYPTO_UNSUPPORTED) ∧
    vb2_verify_digest envDemo keyHwDemo sigDemo 7 wbDemo =
      (envDemo.sw_rsa_verify keyHwDemo sigDemo.sig_data 7 wbDemo,
        [VdCall.hw, VdCall.sw]) :=
  ⟨by decide,
   (vb2_verify_digest_spec envDemo keyHwDemo sigDemo 7 wbDemo).2.2
     (by decide) (by decide) (by decide)⟩

/-- Counterexample to C5 as stated: when the signed-data length exceeds the
buffer size, `vb2_verify_data` returns `VB2_ERROR_VDATA_NOT_ENOUGH_DATA`,
which is none of the five failure kinds the claim enumerates. -/
theorem vb2_verify_data_failure_kinds_cex :
    vb2_verify_data envDemo 0 4 sigDemo keyDemo wbDemo =
      VDATA_NOT_ENOUGH_DATA ∧
    VDATA_NOT_ENOUGH_DATA ∉
      ([VDATA_SIG_SIZE, VDATA_DIGEST_SIZE, VDATA_WORKBUF_DIGEST,
        RSA_DIGEST_MISMATCH, RSA_PADDING, RSA_WORKBUF] : List Vb2Error) := by
  decide

/-- C5 (amended): assuming the software RSA verifier reports only the spec's
success / digest-mismatch / padding-malformed / workbuf-exhausted results,
every result of `vb2_verify_data` is success, one of the five enumerated
failure kinds, the not-enough-data error, or an error propagated verbatim
from a hardware-crypto or software digest callback. -/
theorem vb2_verify_data_failure_kinds (env : CryptoEnv) (data size : Nat)
    (sig : Signature) (key : PublicKey) (wb : Workbuf)
    (hsw : ∀ k s d w, env.sw_rsa_verify k s d w ∈
      [SUCCESS, RSA_DIGEST_MISMATCH, RSA_PADDING, RSA_WORKBUF]) :
    vb2_verify_data env data size sig key wb ∈
      [SUCCESS, VDATA_NOT_ENOUGH_DATA, VDATA_SIG_SIZE, VDATA_DIGEST_SIZE,
       VDATA_WORKBUF_DIGEST, RSA_DIGEST_MISMATCH, RSA_PADDING, RSA_WORKBUF,
       env.hw_digest_init key.hash_alg sig.data_size,
       env.hw_digest_extend data sig.data_size,
       env.hw_digest_finalize (env.digest_size key.hash_alg),
       env.sw_digest_buffer data sig.data_size key.hash_alg
         (env.digest_size key.hash_alg),
       env.hw_rsa_verify key sig.sig_data
         (env.digest_value data sig.data_size key.hash_alg)] := by
  unfold vb2_verify_data vb2_verify_digest
  repeat' split
  all_goals try simp_all
  all_goals (
    rename Workbuf => wbl
    rcases hsw key sig.sig_data (env.digest_value data sig.data_size
      key.hash_alg) wbl with h2 | h2 | h2 | h2 <;> simp [h2])

/-- Witness for C5 (amended): the demo environment satisfies the software-RSA
hypothesis, and the resulting failure is a digest mismatch, one of the
enumerated kinds. -/
theorem vb2_verify_data_failure_kinds_witness :
    (∀ k s d w, envDemo.sw_rsa_verify k s d w ∈
      [SUCCESS, RSA_DIGEST_MISMATCH, RSA_PADDING, RSA_WORKBUF]) ∧
    vb2_verify_data envDemo 0 8 sigDemo keyDemo wbDemo ∈
      [SUCCESS, VDATA_NOT_ENOUGH_DATA, VDATA_SIG_SIZE, VDATA_DIGEST_SIZE,
       VDATA_WORKBUF_DIGEST, RSA_DIGEST_MISMATCH, RSA_PADDING, RSA_WORKBUF,
       envDemo.hw_digest_init keyDemo.hash_alg sigDemo.data_size,
       envDemo.hw_digest_extend 0 sigDemo.data_size,
       envDemo.hw_digest_finalize (envDemo.digest_size keyDemo.hash_alg),
       envDemo.sw_digest_buffer 0 sigDemo.data_size keyDemo.hash_alg
         (envDemo.digest_size keyDemo.hash_alg),
       envDemo.hw_rsa_verify keyDemo sigDemo.sig_data
         (envDemo.digest_value 0 sigDemo.data_size keyDemo.hash_alg)] :=
  ⟨fun k s d w => by simp [envDemo],
   vb2_verify_data_failure_kinds envDemo 0 8 sigDemo keyDemo wbDemo
     (fun k s d w => by simp [envDemo])⟩

/-- C9: with the recovery-mode context flag set, `vb2api_ec_sync` returns
success immediately and leaves the world (shared data, NV record, and the
callback trace, hence the EC-sync-complete bit too) unchanged; likewise
`ec_sync_phase2` performs no EC operation and changes nothing whenever the
shared data records a nonzero recovery reason. -/
theorem vb2api_ec_sync_recovery_noop (env : EcOracle) (w : World) :
    (w.ctx_flags &&& VB2_CONTEXT_RECOVERY_MODE ≠ 0 →
      vb2api_ec_sync env w = (SUCCESS, w)) ∧
    (w.recovery_reason ≠ 0 → ec_sync_phase2 env w = (SUCCESS, w)) := by
  constructor
  · intro h
    unfold vb2api_ec_sync
    split_ifs with h1 h2
    · rfl
    · rfl
  · intro h
    unfold ec_sync_phase2 ec_sync_allowed
    split_ifs <;> simp_all

/-- Witness for C9: a recovery-mode world with nonzero recovery reason is
left untouched by both entry points. -/
theorem vb2api_ec_sync_recovery_noop_witness :
    (worldRec.ctx_flags &&& VB2_CONTEXT_RECOVERY_MODE ≠ 0 ∧
      worldRec.recovery_reason ≠ 0) ∧
    vb2api_ec_sync envEc0 worldRec = (SUCCESS, worldRec) ∧
    ec_sync_phase2 envEc0 worldRec = (SUCCESS, worldRec) :=
  ⟨by decide,
   (vb2api_ec_sync_recovery_noop envEc0 worldRec).1 (by decide),
   (vb2api_ec_sync_recovery_noop envEc0 worldRec).2 (by decide)⟩

/-- C10: if after phase 1 a slow EC update is pending and the shared-data
display-available flag is clear, `vb2api_ec_sync` sets the NV display-request
field to 1 and returns the ordinary reboot-required signal — regardless of
the result phase 1 produced (the display reboot takes precedence). -/
theorem vb2api_ec_sync_display_reboot (env : EcOracle) (w : World)
    (h1 : w.sd_flags &&& VB2_SD_STATUS_EC_SYNC_COMPLETE = 0)
    (h2 : w.ctx_flags &&& VB2_CONTEXT_RECOVERY_MODE = 0)
    (h3 : ec_will_update_slowly (ec_sync_phase1 env w).2 = true)
    (h4 : (ec_sync_phase1 env w).2.sd_flags &&& VB2_SD_FLAG_DISPLAY_AVAILABLE
      = 0) :
    vb2api_ec_sync env w =
      (REBOOT_REQUIRED,
       { (ec_sync_phase1 env w).2 with nv_display_request := 1 }) := by
  rcases hp : ec_sync_phase1 env w with ⟨rv1, w1⟩
  rw [hp] at h3 h4
  unfold vb2api_ec_sync
  rw [if_neg (not_ne_iff.mpr h1), if_neg (not_ne_iff.mpr h2), hp]
  simp only [h3, if_true]
  unfold check_reboot_for_display
  rw [if_pos h4]
  simp

/-- Witness for C10: a slow-sync world without display, whose phase 1 even
fails (hash mismatch while running RW without A/B support), still yields the
display reboot with the NV display request set. -/
theorem vb2api_ec_sync_display_reboot_witness :
    (worldSlow.sd_flags &&& VB2_SD_STATUS_EC_SYNC_COMPLETE = 0 ∧
      worldSlow.ctx_flags &&& VB2_CONTEXT_RECOVERY_MODE = 0 ∧
      ec_will_update_slowly (ec_sync_phase1 envMismatch worldSlow).2 = true ∧
      (ec_sync_phase1 envMismatch worldSlow).2.sd_flags &&&
        VB2_SD_FLAG_DISPLAY_AVAILABLE = 0 ∧
      (ec_sync_phase1 envMismatch worldSlow).1 ≠ SUCCESS) ∧
    vb2api_ec_sync envMismatch worldSlow =
      (REBOOT_REQUIRED,
       { (ec_sync_phase1 envMismatch worldSlow).2 with
           nv_display_request := 1 }) :=
  ⟨by decide,
   vb2api_ec_sync_display_reboot envMismatch worldSlow (by decide)
     (by decide) (by decide) (by decide)⟩

/-- Counterexample to C4 as stated: in recovery mode the first invocation
returns success yet does not set the EC-sync-complete bit. -/
theorem vb2api_ec_sync_idempotent_cex :
    (vb2api_ec_sync envEc0 worldRec).1 = SUCCESS ∧
    (vb2api_ec_sync envEc0 worldRec).2.sd_flags &&&
      VB2_SD_STATUS_EC_SYNC_COMPLETE = 0 := by
  decide

/-- C4 (amended): outside recovery mode, a first `vb2api_ec_sync` invocation
that returns success sets the EC-sync-complete bit, and a second invocation
on the resulting state is a no-op returning success — the world (shared
data, NV record, callback trace) is returned unchanged, so no EC operation
runs. -/
theorem vb2api_ec_sync_idempotent (env : EcOracle) (w : World)
    (hrec : w.ctx_flags &&& VB2_CONTEXT_RECOVERY_MODE = 0)
    (hsucc : (vb2api_ec_sync env w).1 = SUCCESS) :
    ((vb2api_ec_sync env w).2.sd_flags &&&
        VB2_SD_STATUS_EC_SYNC_COMPLETE ≠ 0) ∧
    vb2api_ec_sync env (vb2api_ec_sync env w).2 =
      (SUCCESS, (vb2api_ec_sync env w).2) := by
  rcases h1 : vb2api_ec_sync env w with ⟨rv, w'⟩
  rw [h1] at hsucc
  simp only at hsucc
  subst hsucc
  have hbit : w'.sd_flags &&& VB2_SD_STATUS_EC_SYNC_COMPLETE ≠ 0 := by
    unfold vb2api_ec_sync vb2api_ec_sync_rest at h1
    simp only [display_wait_screen] at h1
    repeat' split at h1
    all_goals simp only [Prod.mk.injEq] at h1
    all_goals obtain ⟨heq, hw⟩ := h1
    all_goals subst hw
    all_goals first
      | assumption
      | exact absurd heq (by decide)
      | exact or_complete_bit_ne _
      | simp_all
  refine ⟨hbit, ?_⟩
  unfold vb2api_ec_sync
  rw [if_pos hbit]

/-- Witness for C4 (amended): a non-recovery world whose sync succeeds ends
up with the completion bit set and a fixpoint second invocation. -/
theorem vb2api_ec_sync_idempotent_witness :
    (worldPlain.ctx_flags &&& VB2_CONTEXT_RECOVERY_MODE = 0 ∧
      (vb2api_ec_sync envEc0 worldPlain).1 = SUCCESS) ∧
    ((vb2api_ec_sync envEc0 worldPlain).2.sd_flags &&&
        VB2_SD_STATUS_EC_SYNC_COMPLETE ≠ 0) ∧
    vb2api_ec_sync envEc0 (vb2api_ec_sync envEc0 worldPlain).2 =
      (SUCCESS, (vb2api_ec_sync envEc0 worldPlain).2) :=
  ⟨by decide,
   vb2api_ec_sync_idempotent envEc0 worldPlain (by decide) (by decide)⟩

/-- C7: on an RW-A/B device (EC-EFS context flag set) whose RW image needs
an update, a successful update makes `sync_ec` return reboot-to-switch-RW
immediately, with no jump-to-RW, RO-update, protect, or disable-jump
operation performed. -/
theorem sync_ec_ab_switch (env : EcOracle) (w : World)
    (hefs : w.ctx_flags &&& VB2_CONTEXT_EC_EFS ≠ 0)
    (hrw : w.sd_flags &&& VB2_SD_FLAG_ECSYNC_EC_RW ≠ 0)
    (hupd : (update_ec env w Sel.ec_update).1 = SUCCESS) :
    sync_ec env w =
      (EC_REBOOT_TO_SWITCH_RW, (update_ec env w Sel.ec_update).2) ∧
    countTailOps (sync_ec env w).2.trace = countTailOps w.trace := by
  rcases hu : update_ec env w Sel.ec_update with ⟨rv, w1⟩
  rw [hu] at hupd
  dsimp only at hupd
  subst hupd
  have hmain : sync_ec env w = (EC_REBOOT_TO_SWITCH_RW, w1) := by
    simp [sync_ec, SYNC_FLAG, hefs, hrw, hu]
  have hcount := countTail_update_ec_up env w
  rw [hu] at hcount
  refine ⟨?_, ?_⟩
  · rw [hmain]
  · rw [hmain]
    dsimp only at hcount ⊢
    exact hcount

/-- Witness for C7: an A/B world with a pending RW update and a benign
oracle reboots to switch RW after only the update and its hash re-check. -/
theorem sync_ec_ab_switch_witness :
    (worldAbRw.ctx_flags &&& VB2_CONTEXT_EC_EFS ≠ 0 ∧
      worldAbRw.sd_flags &&& VB2_SD_FLAG_ECSYNC_EC_RW ≠ 0 ∧
      (update_ec envEc0 worldAbRw Sel.ec_update).1 = SUCCESS) ∧
    sync_ec envEc0 worldAbRw =
      (EC_REBOOT_TO_SWITCH_RW, (update_ec envEc0 worldAbRw Sel.ec_update).2) ∧
    countTailOps (sync_ec envEc0 worldAbRw).2.trace =
      countTailOps worldAbRw.trace :=
  ⟨by decide,
   sync_ec_ab_switch envEc0 worldAbRw (by decide) (by decide) (by decide)⟩

/-- C6: with RO software sync pending (and no RW update or jump needed),
`sync_ec` attempts the RO update at most `RO_RETRIES = 2` times; if both
attempts fail it returns reboot-to-RO-required; and if the second attempt
succeeds after a first failure (with the protect/disable tail succeeding),
the NV recovery-request field ends up restored to the value it held before
the first attempt and sync_ec succeeds. -/
theorem sync_ec_ro_retry (env : EcOracle) (w : World)
    (hro : w.sd_flags &&& VB2_SD_FLAG_ECSYNC_EC_RO ≠ 0)
    (hrw : w.sd_flags &&& VB2_SD_FLAG_ECSYNC_EC_RW = 0)
    (hefs : w.ctx_flags &&& VB2_CONTEXT_EC_EFS = 0)
    (hinrw : w.sd_flags &&& VB2_SD_FLAG_ECSYNC_EC_IN_RW ≠ 0) :
    countRoUpdates (sync_ec env w).2.trace ≤
      countRoUpdates w.trace + RO_RETRIES ∧
    (∀ rv1 w1 rv2 w2,
      update_ec env { w with nv_try_ro_sync := 0 } Sel.readonly = (rv1, w1) →
      rv1 ≠ SUCCESS →
      update_ec env w1 Sel.readonly = (rv2, w2) →
      rv2 ≠ SUCCESS →
      sync_ec env w = (EC_REBOOT_TO_RO_REQUIRED, w2)) ∧
    (∀ rv1 w1 w2,
      update_ec env { w with nv_try_ro_sync := 0 } Sel.readonly = (rv1, w1) →
      rv1 ≠ SUCCESS →
      update_ec env w1 Sel.readonly = (SUCCESS, w2) →
      (∀ s t, env.protect s t = SUCCESS) →
      (∀ t, env.disable_jump t = SUCCESS) →
      (sync_ec env w).1 = SUCCESS ∧
      (sync_ec env w).2.nv_recovery_request = w.nv_recovery_request) := by
  have hred : sync_ec env w = sync_ec_after_jump env w := by
    simp [sync_ec, sync_ec_after_rw, SYNC_FLAG, hefs, hrw, hinrw]
  rw [hred]
  have hjump : sync_ec_after_jump env w =
      match ro_update_loop env RO_RETRIES { w with nv_try_ro_sync := 0 } with
      | (none, w2) => (EC_REBOOT_TO_RO_REQUIRED, w2)
      | (some k, w2) =>
        sync_ec_tail env (if k ≠ 0 then
          request_recovery w2 w.nv_recovery_request else w2) := by
    unfold sync_ec_after_jump
    rw [if_pos hro]
  rw [hjump]
  refine ⟨?_, ?_, ?_⟩
  · have hl := countRo_loop env RO_RETRIES { w with nv_try_ro_sync := 0 }
    rcases hloop : ro_update_loop env RO_RETRIES { w with nv_try_ro_sync := 0 }
      with ⟨res, w2⟩
    rw [hloop] at hl
    dsimp only at hl
    have hw2 : countRoUpdates w2.trace ≤
        countRoUpdates w.trace + RO_RETRIES := by
      simpa using hl
    cases res with
    | none => simpa using hw2
    | some k =>
      dsimp only
      have ht := countRo_tail env
        (if k ≠ 0 then request_recovery w2 w.nv_recovery_request else w2)
      rw [ht]
      split_ifs <;> simpa [request_recovery] using hw2
  · intro rv1 w1 rv2 w2 hu1 hne1 hu2 hne2
    have : ro_update_loop env RO_RETRIES { w with nv_try_ro_sync := 0 } =
        (none, w2) := by
      rw [show RO_RETRIES = 1 + 1 from rfl, ro_update_loop_succ, hu1]
      dsimp only
      rw [if_neg hne1]
      rw [show (1 : Nat) = 0 + 1 from rfl, ro_update_loop_succ, hu2]
      dsimp only
      rw [if_neg hne2]
      rfl
    rw [this]
  · intro rv1 w1 w2 hu1 hne1 hu2 hprot hdis
    have hloop : ro_update_loop env RO_RETRIES { w with nv_try_ro_sync := 0 } =
        (some 1, w2) := by
      rw [show RO_RETRIES = 1 + 1 from rfl, ro_update_loop_succ, hu1]
      dsimp only
      rw [if_neg hne1]
      rw [show (1 : Nat) = 0 + 1 from rfl, ro_update_loop_succ, hu2]
      dsimp only
      rw [if_pos rfl]
    rw [hloop]
    dsimp only
    rw [if_pos (by norm_num : (1 : Nat) ≠ 0)]
    have htail : ∀ wt : World, (sync_ec_tail env wt).1 = SUCCESS ∧
        (sync_ec_tail env wt).2.nv_recovery_request =
          wt.nv_recovery_request := by
      intro wt
      unfold sync_ec_tail protect_ec
      simp [hprot, hdis, recordOp, request_recovery]
    rcases htail (request_recovery w2 w.nv_recovery_request) with ⟨ha, hb⟩
    exact ⟨ha, by rw [hb]; rfl⟩

/-- Witness for C6: with an oracle failing the first RO update and
succeeding on retry, sync_ec succeeds and the recovery request returns to
its pre-attempt value (0). -/
theorem sync_ec_ro_retry_witness :
    (worldRoPending.sd_flags &&& VB2_SD_FLAG_ECSYNC_EC_RO ≠ 0 ∧
      worldRoPending.sd_flags &&& VB2_SD_FLAG_ECSYNC_EC_RW = 0 ∧
      worldRoPending.ctx_flags &&& VB2_CONTEXT_EC_EFS = 0 ∧
      worldRoPending.sd_flags &&& VB2_SD_FLAG_ECSYNC_EC_IN_RW ≠ 0) ∧
    (sync_ec envRetry worldRoPending).1 = SUCCESS ∧
    (sync_ec envRetry worldRoPending).2.nv_recovery_request =
      worldRoPending.nv_recovery_request :=
  ⟨by decide,
   (sync_ec_ro_retry envRetry worldRoPending (by decide) (by decide)
       (by decide) (by decide)).2.2
     (other 1) ⟨0, 0, 72, 0, 38, 0, 0, [EcOp.update_image Sel.readonly]⟩
     ⟨0, 0, 64, 0, 38, 0, 0,
      [EcOp.update_image Sel.readonly, EcOp.update_image Sel.readonly,
       EcOp.hash_image Sel.readonly, EcOp.expected_hash Sel.readonly]⟩
     (by decide) (by decide) (by decide)
     (fun s t => rfl) (fun t => rfl)⟩

end Vboot
